import Mathlib

/-!
# Crisis Risk Assessment & Escalation Engine — shallow embedding

A shallow embedding of `src/services/safety_service.py` (class `SafetyService`),
the crisis risk assessment and escalation engine of the omani-therapist-azure
repository, together with theorems settling the specification claims.

Modelling conventions:
* Message text is a `List Char`; Python's `keyword in message` substring test is
  `containsSub`, and `str.lower()` is a character-wise `Char.toLower` map
  (the identity on the Arabic keyword tables, as in Python).
* Python floats used for severity scores are modelled as `ℚ` (the scores are
  exact sums of halves and tenths, so rational arithmetic is exact here).
* Crisis levels are Python ints, modelled as `ℤ`; Python `int(float)` is
  `truncQ` (truncation toward zero).
* The `try/except` in `analyze_safety` is modelled by a `Faults` record saying
  which of the keyword / pattern / aggregation subsystems raises; a raise at
  any of those points yields the fallback verdict and leaves state untouched.
* External collaborators (`db_manager`) are modelled by their data: the session
  message history is an input, and the call to `db_manager.log_crisis_event` is
  returned as an `Option LogEntry`.
* `datetime.now()` timestamps decorate events but are read by no decision
  logic, so they are omitted from the event records.
-/

namespace SafetyService

/-- Characters of a string literal (used to write the Arabic keyword tables). -/
def lc (s : String) : List Char := s.data

/-- Python `str.lower()`, character-wise. -/
def lowerStr (s : List Char) : List Char := s.map Char.toLower

/-- Python's substring containment `needle in hay`. -/
def containsSub (hay needle : List Char) : Bool :=
  match hay with
  | [] => needle.isEmpty
  | _ :: t => needle.isPrefixOf hay || containsSub t needle

/-- Python `int()` on a rational: truncation toward zero. -/
def truncQ (q : ℚ) : ℤ := if q < 0 then -⌊-q⌋ else ⌊q⌋

/-- Python `l[-n:]`: the last `n` elements (the whole list when shorter). -/
def takeLast {α : Type} (n : ℕ) (l : List α) : List α := l.drop (l.length - n)

/-! ## Keyword tables (`_load_crisis_keywords`) -/

def suicide_keywords : List (List Char) :=
  [lc "انتحار", lc "أقتل نفسي", lc "أنهي حياتي", lc "لا أريد العيش",
   lc "أموت", lc "أريد أن أموت", lc "ما عدت أريد العيش", lc "انتهيت",
   lc "سأنهي هذا", lc "أفضل أن أموت", lc "الموت أفضل", lc "لا فائدة"]

def self_harm_keywords : List (List Char) :=
  [lc "أؤذي نفسي", lc "أجرح نفسي", lc "أضرب نفسي", lc "أحرق نفسي",
   lc "أقطع نفسي", lc "أعذب نفسي", lc "أذية النفس", lc "جروح",
   lc "أستحق الألم", lc "أعاقب نفسي"]

def hopelessness_keywords : List (List Char) :=
  [lc "لا أمل", lc "ميؤوس", lc "فقدت الأمل", lc "لا فائدة",
   lc "مستحيل", lc "لن يتحسن", lc "انتهى الأمر", lc "لا معنى",
   lc "فارغ", lc "ضائع", lc "لا أستطيع", lc "عاجز"]

def isolation_keywords : List (List Char) :=
  [lc "وحيد", lc "لا أحد", lc "منعزل", lc "مهجور", lc "منسي",
   lc "لا أحد يهتم", lc "لا أحد يفهم", lc "بمفردي", lc "معزول"]

def substance_abuse_keywords : List (List Char) :=
  [lc "مخدرات", lc "كحول", lc "شرب", lc "إدمان", lc "مدمن",
   lc "حبوب", lc "مواد", lc "تعاطي", lc "سكران", lc "مخمور"]

def violence_keywords : List (List Char) :=
  [lc "أضرب", lc "أعتدي", lc "أؤذي الآخرين", lc "عنف", lc "قتل",
   lc "أقتل", lc "أهدد", lc "انتقام", lc "أدمر", lc "أحطم"]

def psychosis_keywords : List (List Char) :=
  [lc "أسمع أصوات", lc "أرى أشياء", lc "يتحدثون عني", lc "يراقبونني",
   lc "مؤامرة", lc "يتبعونني", lc "أفكار غريبة", lc "لست أنا"]

/-- The `crisis_keywords` dict, in Python insertion order. -/
def crisis_keywords : List (String × List (List Char)) :=
  [("suicide", suicide_keywords),
   ("self_harm", self_harm_keywords),
   ("hopelessness", hopelessness_keywords),
   ("isolation", isolation_keywords),
   ("substance_abuse", substance_abuse_keywords),
   ("violence", violence_keywords),
   ("psychosis", psychosis_keywords)]

/-- The `crisis_thresholds` dict. -/
structure Thresholds where
  low : ℤ
  medium : ℤ
  high : ℤ
  critical : ℤ
deriving DecidableEq, Repr

def crisis_thresholds : Thresholds := ⟨3, 5, 7, 9⟩

/-! ## Keyword analysis (`_analyze_crisis_keywords`) -/

/-- The per-match weight added for a category in `_analyze_crisis_keywords`. -/
def categoryWeight (category : String) : ℚ :=
  if category = "suicide" then 3
  else if category = "self_harm" then 5/2
  else if category = "violence" then 5/2
  else if category = "psychosis" then 2
  else 1

/-- The keywords of one category list found in the (lowered) message. -/
def matchedTerms (message_lower : List Char) (kws : List (List Char)) :
    List (List Char) :=
  kws.filter (fun kw => containsSub message_lower kw)

structure CategoryMatch where
  /-- the dict key is `"matches"` (a reserved token here) -/
  matched : List (List Char)
  count : ℕ
  severity : ℚ
deriving DecidableEq, Repr

structure KeywordAnalysis where
  /-- the dict `keyword_matches` (its Python key is `"matches"`) -/
  matched : List (String × CategoryMatch)
  total_severity : ℚ
  high_risk_categories : List String
deriving DecidableEq, Repr

def analyze_crisis_keywords (message : List Char) : KeywordAnalysis :=
  let message_lower := lowerStr message
  let keyword_matches :=
    (crisis_keywords.map (fun ck =>
      let ms := matchedTerms message_lower ck.2
      (ck.1, CategoryMatch.mk ms ms.length ((ms.length : ℚ) * categoryWeight ck.1)))).filter
      (fun p => !p.2.matched.isEmpty)
  { matched := keyword_matches
    total_severity := min 10 ((keyword_matches.map (fun p => p.2.severity)).sum)
    high_risk_categories :=
      (keyword_matches.filter (fun p =>
        (p.1 == "suicide" || p.1 == "self_harm" || p.1 == "violence")
          && decide (0 < p.2.count))).map (fun p => p.1) }

/-! ## Pattern analysis (`_analyze_crisis_patterns`) -/

def finality_words : List (List Char) :=
  [lc "آخر مرة", lc "لن أعود", lc "انتهى الأمر", lc "لا رجعة", lc "نهاية"]

def goodbye_words : List (List Char) :=
  [lc "وداع", lc "مع السلامة إلى الأبد", lc "لن نلتقي", lc "اعتنوا بأنفسكم"]

def extreme_words : List (List Char) :=
  [lc "دائماً", lc "أبداً", lc "كل شيء", lc "لا شيء", lc "الأسوأ", lc "مستحيل"]

def worthless_words : List (List Char) :=
  [lc "لا قيمة لي", lc "عديم الفائدة", lc "فاشل", lc "لا أستحق", lc "عبء"]

/-- Python `sum(1 for word in ws if word in message_lower)`. -/
def countMatches (message_lower : List Char) (ws : List (List Char)) : ℕ :=
  (matchedTerms message_lower ws).length

structure PatternCounts where
  finality_statements : ℕ
  goodbye_messages : ℕ
  past_tense_future : ℕ
  extreme_language : ℕ
  isolation_expressions : ℕ
  worthlessness : ℕ
  burden_statements : ℕ
deriving DecidableEq, Repr

structure PatternAnalysis where
  patterns : PatternCounts
  severity : ℕ
  high_risk_patterns : List String
deriving DecidableEq, Repr

def analyze_crisis_patterns (message : List Char) : PatternAnalysis :=
  let message_lower := lowerStr message
  let p : PatternCounts :=
    { finality_statements := countMatches message_lower finality_words
      goodbye_messages := countMatches message_lower goodbye_words
      past_tense_future := 0
      extreme_language := countMatches message_lower extreme_words
      isolation_expressions := 0
      worthlessness := countMatches message_lower worthless_words
      burden_statements := 0 }
  let pattern_severity :=
    p.finality_statements * 3 + p.goodbye_messages * 3 + p.past_tense_future * 2 +
    p.extreme_language * 1 + p.isolation_expressions * 2 + p.worthlessness * 2 +
    p.burden_statements * 2
  { patterns := p
    severity := min 10 pattern_severity
    high_risk_patterns :=
      (if 0 < p.finality_statements then ["finality_statements"] else []) ++
      (if 0 < p.goodbye_messages then ["goodbye_messages"] else []) ++
      (if 0 < p.burden_statements then ["burden_statements"] else []) }

/-! ## Session context (`_analyze_session_context`) and session state -/

/-- One entry of the db-managed session history, as read by the context step. -/
structure HistMsg where
  user : List Char
  emotional_state : String
deriving DecidableEq, Repr

/-- One entry of `session_crisis_history[session_id]` (timestamp omitted). -/
structure Event where
  crisis_level : ℤ
  crisis_type : String
deriving DecidableEq, Repr

structure Context where
  escalation_detected : Bool
  repeated_crisis_themes : ℕ
  emotional_deterioration : Bool
  previous_interventions : ℕ
  session_duration : ℕ
deriving DecidableEq, Repr

def defaultContext : Context :=
  { escalation_detected := false
    repeated_crisis_themes := 0
    emotional_deterioration := false
    previous_interventions := 0
    session_duration := 0 }

def negative_emotions : List String := ["sad", "anxious", "hopeless", "angry"]

def analyze_session_context (history : List HistMsg) (sessionHist : List Event) :
    Context :=
  if history.isEmpty then defaultContext
  else
    let recent_messages := takeLast 3 history
    let crisis_indicators_count :=
      (recent_messages.map (fun m =>
        (crisis_keywords.map (fun ck => countMatches (lowerStr m.user) ck.2)).sum)).sum
    let emotions := history.map (fun m => m.emotional_state)
    let recent_negative :=
      ((takeLast 5 emotions).filter (fun e => negative_emotions.contains e)).length
    { escalation_detected := decide (2 < crisis_indicators_count)
      repeated_crisis_themes := crisis_indicators_count
      emotional_deterioration := decide (3 ≤ recent_negative)
      previous_interventions := sessionHist.length
      session_duration := 0 }

/-! ## Aggregation (`_calculate_crisis_level`) -/

def calculate_crisis_level (kw : KeywordAnalysis) (pat : PatternAnalysis)
    (ctx : Context) : ℤ :=
  let keyword_score : ℚ := kw.total_severity * (1/2)
  let pattern_score : ℚ := (pat.severity : ℚ) * (3/10)
  let context_score : ℚ :=
    (if ctx.escalation_detected then 2 else 0) +
    (if ctx.emotional_deterioration then 1 else 0) +
    (if 1 < ctx.previous_interventions then 1 else 0) +
    (if !kw.high_risk_categories.isEmpty
      then (kw.high_risk_categories.length : ℚ) * (3/2) else 0)
  let total_score := keyword_score + pattern_score + context_score
  max 0 (min 10 (truncQ total_score))

/-! ## Classification (`_determine_crisis_type`) -/

/-- Python `category in keyword_matches` on the dict of matched categories. -/
def hasCategory (kw : KeywordAnalysis) (c : String) : Bool :=
  kw.matched.any (fun p => p.1 == c)

def determine_crisis_type (kw : KeywordAnalysis) (pat : PatternAnalysis) : String :=
  if hasCategory kw "suicide" then "suicide_risk"
  else if hasCategory kw "self_harm" then "self_harm_risk"
  else if hasCategory kw "violence" then "violence_risk"
  else if hasCategory kw "psychosis" then "mental_health_emergency"
  else if hasCategory kw "substance_abuse" then "substance_abuse"
  else if hasCategory kw "hopelessness" then "severe_depression"
  else if hasCategory kw "isolation" then "social_crisis"
  else if pat.high_risk_patterns.contains "finality_statements" then "suicide_risk"
  else if pat.high_risk_patterns.contains "goodbye_messages" then "suicide_risk"
  else "emotional_distress"

/-! ## Urgency (`_assess_urgency`) -/

def assess_urgency (crisis_level : ℤ) (crisis_type : String) (ctx : Context) :
    String :=
  if 9 ≤ crisis_level then "immediate"
  else if (crisis_type = "suicide_risk" ∨ crisis_type = "violence_risk" ∨
      crisis_type = "mental_health_emergency") ∧ 7 ≤ crisis_level then "immediate"
  else if (crisis_type = "suicide_risk" ∨ crisis_type = "violence_risk" ∨
      crisis_type = "mental_health_emergency") ∧ 5 ≤ crisis_level then "urgent"
  else if ctx.escalation_detected ∧ 6 ≤ crisis_level then "urgent"
  else if 7 ≤ crisis_level then "urgent"
  else if 5 ≤ crisis_level then "moderate"
  else if 3 ≤ crisis_level then "low"
  else "none"

/-! ## Recommendations (`_get_safety_recommendations`) -/

def get_safety_recommendations (_crisis_level : ℤ) (urgency : String) :
    List String :=
  if urgency = "immediate" then
    ["تدخل فوري مطلوب", "تحويل للطوارئ النفسية",
     "عدم ترك المستخدم وحيداً", "تفعيل بروتوكول الطوارئ"]
  else if urgency = "urgent" then
    ["مراقبة مستمرة مطلوبة", "تحويل لمختص في أقرب وقت",
     "إشراك الأسرة إذا أمكن", "متابعة خلال 24 ساعة"]
  else if urgency = "moderate" then
    ["تقييم دوري للحالة", "تعزيز شبكة الدعم",
     "جدولة متابعة خلال أسبوع", "توفير موارد المساعدة الذاتية"]
  else
    ["مواصلة الدعم العاطفي", "مراقبة التطور", "تعزيز آليات التأقلم الصحية"]

/-! ## Session tracking (`_update_session_crisis_tracking`) -/

def update_session_crisis_tracking (hist : List Event) (crisis_level : ℤ)
    (crisis_type : String) : List Event :=
  let h := hist ++ [⟨crisis_level, crisis_type⟩]
  if 10 < h.length then takeLast 10 h else h

/-! ## The safety verdict and `analyze_safety` -/

/-- The dict passed to `db_manager.log_crisis_event` by `_log_crisis_event`
(timestamp and the always-empty `intervention_response` omitted). -/
structure LogEntry where
  crisis_level : ℤ
  crisis_type : String
  user_message : List Char
  escalated : Bool
  follow_up_needed : Bool
deriving DecidableEq, Repr

/-- The dict returned by `analyze_safety`.  The normal path carries
`indicators`/`recommendations` and no `error` key; the exception path carries
an `error` key and neither indicators nor recommendations — modelled by
`Option` fields plus an `error` flag. -/
structure Verdict where
  crisis_level : ℤ
  crisis_type : String
  urgency : String
  indicators : Option (KeywordAnalysis × PatternAnalysis × Context)
  recommendations : Option (List String)
  requires_intervention : Bool
  requires_escalation : Bool
  error : Bool
deriving DecidableEq, Repr

/-- The conservative fallback returned by the `except` branch of
`analyze_safety`. -/
def fallbackVerdict : Verdict :=
  { crisis_level := 8
    crisis_type := "unknown"
    urgency := "high"
    indicators := none
    recommendations := none
    requires_intervention := true
    requires_escalation := false
    error := true }

/-- Which of the fallible subsystems inside the `try` block raises. -/
structure Faults where
  keywordFault : Bool
  patternFault : Bool
  aggregationFault : Bool
deriving DecidableEq, Repr

def noFaults : Faults := ⟨false, false, false⟩

/-- Result of one `analyze_safety` call: the verdict, the session's
`session_crisis_history` entry afterwards, and the crisis event logged to the
database, if any. -/
structure AnalyzeResult where
  verdict : Verdict
  sessionHistory : List Event
  logged : Option LogEntry
deriving DecidableEq, Repr

def analyze_safety (f : Faults) (message : List Char) (dbHistory : List HistMsg)
    (sessionHist : List Event) : AnalyzeResult :=
  if f.keywordFault then ⟨fallbackVerdict, sessionHist, none⟩ else
  let keyword_analysis := analyze_crisis_keywords message
  if f.patternFault then ⟨fallbackVerdict, sessionHist, none⟩ else
  let pattern_analysis := analyze_crisis_patterns message
  let context_analysis := analyze_session_context dbHistory sessionHist
  if f.aggregationFault then ⟨fallbackVerdict, sessionHist, none⟩ else
  let crisis_level := calculate_crisis_level keyword_analysis pattern_analysis
    context_analysis
  let crisis_type := determine_crisis_type keyword_analysis pattern_analysis
  let urgency := assess_urgency crisis_level crisis_type context_analysis
  let newHist := update_session_crisis_tracking sessionHist crisis_level crisis_type
  let verdict : Verdict :=
    { crisis_level := crisis_level
      crisis_type := crisis_type
      urgency := urgency
      indicators := some (keyword_analysis, pattern_analysis, context_analysis)
      recommendations := some (get_safety_recommendations crisis_level urgency)
      requires_intervention := decide (crisis_thresholds.high ≤ crisis_level)
      requires_escalation := decide (crisis_thresholds.critical ≤ crisis_level)
      error := false }
  let logged :=
    if crisis_thresholds.medium ≤ crisis_level then
      some (LogEntry.mk crisis_level crisis_type message
        verdict.requires_escalation verdict.requires_intervention)
    else none
  ⟨verdict, newHist, logged⟩

/-- A sequence of `analyze_safety` calls on one session (each call with its own
fault injection, message and db history), threading `session_crisis_history`. -/
structure AnalyzeInput where
  faults : Faults
  message : List Char
  dbHistory : List HistMsg
deriving Repr

def runAnalyses (inputs : List AnalyzeInput) (hist : List Event) : List Event :=
  inputs.foldl
    (fun h i => (analyze_safety i.faults i.message i.dbHistory h).sessionHistory)
    hist

/-! ## Escalation (`check_escalation_needed`) -/

structure EscalationCriteria where
  sustained_high_risk : Bool
  increasing_severity : Bool
  failed_interventions : Bool
  immediate_danger : Bool
deriving DecidableEq, Repr

structure EscalationAssessment where
  escalation_needed : Bool
  criteria_met : EscalationCriteria
  recommended_action : String
  urgency : String
deriving DecidableEq, Repr

def get_escalation_recommendation (c : EscalationCriteria) : String :=
  if c.immediate_danger then "تدخل طوارئ فوري - اتصل بـ 999"
  else if c.sustained_high_risk then "تحويل عاجل لطبيب نفسي متخصص"
  else if c.increasing_severity then "تقييم نفسي شامل مطلوب"
  else if c.failed_interventions then "إشراف طبي مباشر مطلوب"
  else "مواصلة المراقبة والدعم"

def check_escalation_needed (sessionHist : List Event)
    (current_crisis_level : ℤ) : EscalationAssessment :=
  let recent_high_risk := (takeLast 5 sessionHist).filter
    (fun e => decide (crisis_thresholds.high ≤ e.crisis_level))
  let sustained_high_risk := decide (3 ≤ recent_high_risk.length)
  let increasing_severity :=
    if 3 ≤ sessionHist.length then
      let recent_levels : List ℤ :=
        (takeLast 3 sessionHist).map (fun e => e.crisis_level)
      decide (recent_levels.headD 0 < recent_levels.getLastD 0) &&
        decide ((18 : ℤ) < recent_levels.sum)
    else false
  let immediate_danger := decide (9 ≤ current_crisis_level)
  let failed_interventions := decide (2 < sessionHist.length)
  let escalation_needed :=
    immediate_danger || (sustained_high_risk && increasing_severity) ||
      (failed_interventions && decide (7 ≤ current_crisis_level))
  let criteria : EscalationCriteria :=
    ⟨sustained_high_risk, increasing_severity, failed_interventions,
     immediate_danger⟩
  { escalation_needed := escalation_needed
    criteria_met := criteria
    recommended_action := get_escalation_recommendation criteria
    urgency := if immediate_danger then "immediate" else "urgent" }

/-! ## Spec-side definitions (used only to compare claims against the code) -/

/-- The aggregation formula exactly as the spec words it (§4.4): the weighted
sum is *rounded* before clamping. -/
def specCrisisLevelRound (category_severity pattern_severity : ℚ)
    (escalation_detected emotional_deterioration : Bool)
    (previous_interventions high_risk_count : ℕ) : ℤ :=
  let context_bonus : ℚ :=
    (if escalation_detected then 2 else 0) +
    (if emotional_deterioration then 1 else 0) +
    (if 1 < previous_interventions then 1 else 0) +
    (high_risk_count : ℚ) * (3/2)
  max 0 (min 10 (round ((1/2) * category_severity + (3/10) * pattern_severity +
    context_bonus)))

/-- The spec's formula amended only in its final integerisation: the weighted
sum is truncated (floored, being non-negative), as `int()` does in the code. -/
def specCrisisLevelTrunc (category_severity pattern_severity : ℚ)
    (escalation_detected emotional_deterioration : Bool)
    (previous_interventions high_risk_count : ℕ) : ℤ :=
  let context_bonus : ℚ :=
    (if escalation_detected then 2 else 0) +
    (if emotional_deterioration then 1 else 0) +
    (if 1 < previous_interventions then 1 else 0) +
    (high_risk_count : ℚ) * (3/2)
  max 0 (min 10 ⌊(1/2) * category_severity + (3/10) * pattern_severity +
    context_bonus⌋)

/-- Each element strictly smaller than the one after it. -/
def strictlyIncreasing : List ℤ → Bool
  | a :: b :: t => decide (a < b) && strictlyIncreasing (b :: t)
  | _ => true

/-- `increasing_severity` exactly as the spec words it (§4.5): the last three
events' levels *strictly increasing* and their sum above 18. -/
def specIncreasingSeverity (sessionHist : List Event) : Prop :=
  3 ≤ sessionHist.length ∧
  strictlyIncreasing ((takeLast 3 sessionHist).map (fun e => e.crisis_level)) = true ∧
  18 < ((takeLast 3 sessionHist).map (fun e => e.crisis_level)).sum

instance (l : List Event) : Decidable (specIncreasingSeverity l) :=
  inferInstanceAs (Decidable (3 ≤ l.length ∧
    strictlyIncreasing ((takeLast 3 l).map (fun e => e.crisis_level)) = true ∧
    18 < ((takeLast 3 l).map (fun e => e.crisis_level)).sum))

/-! ## Kernel-computable evaluation layer

`Rat.add`, `Rat.mul` and `Rat.div` are `@[irreducible]`, so a closed run of the
engine cannot be evaluated by `decide` directly.  The `E`-suffixed definitions
below are the same functions with the rational arithmetic routed through
`mkRat`, which does reduce in the kernel; each is proved equal to its
counterpart, and the concrete witnesses rewrite along those equalities before
evaluating. -/

def qadd (a b : ℚ) : ℚ := mkRat (a.num * b.den + b.num * a.den) (a.den * b.den)

def qmul (a b : ℚ) : ℚ := mkRat (a.num * b.num) (a.den * b.den)

def qnat (n : ℕ) : ℚ := mkRat n 1

def qsum (l : List ℚ) : ℚ := l.foldr qadd 0

theorem qadd_eq (a b : ℚ) : qadd a b = a + b := by
  have ha : ((a.den : ℚ)) ≠ 0 := Nat.cast_ne_zero.mpr a.den_nz
  have hb : ((b.den : ℚ)) ≠ 0 := Nat.cast_ne_zero.mpr b.den_nz
  rw [qadd, Rat.mkRat_eq_div]
  push_cast
  conv_rhs => rw [← Rat.num_div_den a, ← Rat.num_div_den b,
    div_add_div _ _ ha hb]
  ring_nf

theorem qmul_eq (a b : ℚ) : qmul a b = a * b := by
  rw [qmul, Rat.mkRat_eq_div]
  push_cast
  conv_rhs => rw [← Rat.num_div_den a, ← Rat.num_div_den b]
  rw [div_mul_div_comm]

theorem qnat_eq (n : ℕ) : qnat n = (n : ℚ) := by
  rw [qnat, Rat.mkRat_one]; push_cast; rfl

theorem qsum_eq (l : List ℚ) : qsum l = l.sum := by
  induction l with
  | nil => rfl
  | cons a t ih => rw [qsum, List.foldr_cons, qadd_eq, List.sum_cons, ← qsum, ih]

theorem mkRat_half : mkRat 1 2 = (1 : ℚ)/2 := by
  rw [Rat.mkRat_eq_div]; norm_num

theorem mkRat_5_2 : mkRat 5 2 = (5 : ℚ)/2 := by
  rw [Rat.mkRat_eq_div]; norm_num

theorem mkRat_3_10 : mkRat 3 10 = (3 : ℚ)/10 := by
  rw [Rat.mkRat_eq_div]; norm_num

theorem mkRat_3_2 : mkRat 3 2 = (3 : ℚ)/2 := by
  rw [Rat.mkRat_eq_div]; norm_num

def categoryWeightE (category : String) : ℚ :=
  if category = "suicide" then 3
  else if category = "self_harm" then mkRat 5 2
  else if category = "violence" then mkRat 5 2
  else if category = "psychosis" then 2
  else 1

theorem categoryWeightE_eq (c : String) : categoryWeightE c = categoryWeight c := by
  rw [categoryWeightE, categoryWeight, mkRat_5_2]

def analyze_crisis_keywordsE (message : List Char) : KeywordAnalysis :=
  let message_lower := lowerStr message
  let keyword_matches :=
    (crisis_keywords.map (fun ck =>
      let ms := matchedTerms message_lower ck.2
      (ck.1, CategoryMatch.mk ms ms.length
        (qmul (qnat ms.length) (categoryWeightE ck.1))))).filter
      (fun p => !p.2.matched.isEmpty)
  { matched := keyword_matches
    total_severity := min 10 (qsum (keyword_matches.map (fun p => p.2.severity)))
    high_risk_categories :=
      (keyword_matches.filter (fun p =>
        (p.1 == "suicide" || p.1 == "self_harm" || p.1 == "violence")
          && decide (0 < p.2.count))).map (fun p => p.1) }

theorem analyze_crisis_keywordsE_eq (m : List Char) :
    analyze_crisis_keywordsE m = analyze_crisis_keywords m := by
  simp only [analyze_crisis_keywordsE, analyze_crisis_keywords, qmul_eq, qnat_eq,
    qsum_eq, categoryWeightE_eq]

def calculate_crisis_levelE (kw : KeywordAnalysis) (pat : PatternAnalysis)
    (ctx : Context) : ℤ :=
  let keyword_score : ℚ := qmul kw.total_severity (mkRat 1 2)
  let pattern_score : ℚ := qmul (qnat pat.severity) (mkRat 3 10)
  let context_score : ℚ :=
    qadd (qadd (qadd
      (if ctx.escalation_detected then 2 else 0)
      (if ctx.emotional_deterioration then 1 else 0))
      (if 1 < ctx.previous_interventions then 1 else 0))
      (if !kw.high_risk_categories.isEmpty
        then qmul (qnat kw.high_risk_categories.length) (mkRat 3 2) else 0)
  let total_score := qadd (qadd keyword_score pattern_score) context_score
  max 0 (min 10 (truncQ total_score))

theorem calculate_crisis_levelE_eq (kw : KeywordAnalysis) (pat : PatternAnalysis)
    (ctx : Context) : calculate_crisis_levelE kw pat ctx =
      calculate_crisis_level kw pat ctx := by
  simp only [calculate_crisis_levelE, calculate_crisis_level, qadd_eq, qmul_eq,
    qnat_eq, mkRat_half, mkRat_3_10, mkRat_3_2]

def analyze_safetyE (f : Faults) (message : List Char) (dbHistory : List HistMsg)
    (sessionHist : List Event) : AnalyzeResult :=
  if f.keywordFault then ⟨fallbackVerdict, sessionHist, none⟩ else
  let keyword_analysis := analyze_crisis_keywordsE message
  if f.patternFault then ⟨fallbackVerdict, sessionHist, none⟩ else
  let pattern_analysis := analyze_crisis_patterns message
  let context_analysis := analyze_session_context dbHistory sessionHist
  if f.aggregationFault then ⟨fallbackVerdict, sessionHist, none⟩ else
  let crisis_level := calculate_crisis_levelE keyword_analysis pattern_analysis
    context_analysis
  let crisis_type := determine_crisis_type keyword_analysis pattern_analysis
  let urgency := assess_urgency crisis_level crisis_type context_analysis
  let newHist := update_session_crisis_tracking sessionHist crisis_level crisis_type
  let verdict : Verdict :=
    { crisis_level := crisis_level
      crisis_type := crisis_type
      urgency := urgency
      indicators := some (keyword_analysis, pattern_analysis, context_analysis)
      recommendations := some (get_safety_recommendations crisis_level urgency)
      requires_intervention := decide (crisis_thresholds.high ≤ crisis_level)
      requires_escalation := decide (crisis_thresholds.critical ≤ crisis_level)
      error := false }
  let logged :=
    if crisis_thresholds.medium ≤ crisis_level then
      some (LogEntry.mk crisis_level crisis_type message
        verdict.requires_escalation verdict.requires_intervention)
    else none
  ⟨verdict, newHist, logged⟩

theorem analyze_safetyE_eq (f : Faults) (m : List Char) (dbH : List HistMsg)
    (sh : List Event) : analyze_safetyE f m dbH sh = analyze_safety f m dbH sh := by
  simp only [analyze_safetyE, analyze_safety, analyze_crisis_keywordsE_eq,
    calculate_crisis_levelE_eq]

/-- Kernel-computable `round`. -/
def roundE (q : ℚ) : ℤ := ⌊qadd q (mkRat 1 2)⌋

theorem roundE_eq (q : ℚ) : roundE q = round q := by
  rw [roundE, qadd_eq, mkRat_half, round_eq]

def specCrisisLevelRoundE (category_severity pattern_severity : ℚ)
    (escalation_detected emotional_deterioration : Bool)
    (previous_interventions high_risk_count : ℕ) : ℤ :=
  let context_bonus : ℚ :=
    qadd (qadd (qadd
      (if escalation_detected then 2 else 0)
      (if emotional_deterioration then 1 else 0))
      (if 1 < previous_interventions then 1 else 0))
      (qmul (qnat high_risk_count) (mkRat 3 2))
  max 0 (min 10 (roundE (qadd (qadd (qmul (mkRat 1 2) category_severity)
    (qmul (mkRat 3 10) pattern_severity)) context_bonus)))

theorem specCrisisLevelRoundE_eq (cs ps : ℚ) (e d : Bool) (pi hrc : ℕ) :
    specCrisisLevelRoundE cs ps e d pi hrc = specCrisisLevelRound cs ps e d pi hrc := by
  simp only [specCrisisLevelRoundE, specCrisisLevelRound, qadd_eq, qmul_eq,
    qnat_eq, mkRat_half, mkRat_3_10, mkRat_3_2, roundE_eq]

/-! ## Shared lemmas -/

theorem calculate_crisis_level_bounds (kw : KeywordAnalysis)
    (pat : PatternAnalysis) (ctx : Context) :
    0 ≤ calculate_crisis_level kw pat ctx ∧ calculate_crisis_level kw pat ctx ≤ 10 := by
  unfold calculate_crisis_level
  exact ⟨le_max_left 0 _, max_le (by norm_num) (min_le_left _ _)⟩

theorem truncQ_of_nonneg {q : ℚ} (h : 0 ≤ q) : truncQ q = ⌊q⌋ := by
  rw [truncQ, if_neg (not_lt.mpr h)]

theorem categoryWeight_pos (c : String) : 0 < categoryWeight c := by
  unfold categoryWeight
  split_ifs <;> norm_num

/-- Every entry of the `keyword_matches` dict comes from one category of the
keyword table, with a non-empty list of matched terms. -/
theorem mem_keyword_matched {m : List Char} {p : String × CategoryMatch}
    (hp : p ∈ (analyze_crisis_keywords m).matched) :
    ∃ ck ∈ crisis_keywords,
      p = (ck.1, CategoryMatch.mk (matchedTerms (lowerStr m) ck.2)
        (matchedTerms (lowerStr m) ck.2).length
        (((matchedTerms (lowerStr m) ck.2).length : ℚ) * categoryWeight ck.1)) ∧
      matchedTerms (lowerStr m) ck.2 ≠ [] := by
  simp only [analyze_crisis_keywords, List.mem_filter, List.mem_map] at hp
  obtain ⟨⟨ck, hck, rfl⟩, hne⟩ := hp
  refine ⟨ck, hck, rfl, fun hnil => ?_⟩
  rw [hnil] at hne
  simp at hne

theorem total_severity_nonneg (m : List Char) :
    0 ≤ (analyze_crisis_keywords m).total_severity := by
  refine le_min (by norm_num) (List.sum_nonneg ?_)
  intro x hx
  obtain ⟨p, hp, rfl⟩ := List.mem_map.mp hx
  obtain ⟨ck, _, rfl, _⟩ := mem_keyword_matched hp
  exact mul_nonneg (Nat.cast_nonneg _) (categoryWeight_pos ck.1).le

/-- `_calculate_crisis_level` on analysis results equals the spec formula with
truncation in place of rounding. -/
theorem calculate_crisis_level_trunc_eq (kw : KeywordAnalysis)
    (pat : PatternAnalysis) (ctx : Context) (h : 0 ≤ kw.total_severity) :
    calculate_crisis_level kw pat ctx =
      specCrisisLevelTrunc kw.total_severity (pat.severity : ℚ)
        ctx.escalation_detected ctx.emotional_deterioration
        ctx.previous_interventions kw.high_risk_categories.length := by
  have h1 : (0:ℚ) ≤ if ctx.escalation_detected then 2 else 0 := by
    split <;> norm_num
  have h2 : (0:ℚ) ≤ if ctx.emotional_deterioration then 1 else 0 := by
    split <;> norm_num
  have h3 : (0:ℚ) ≤ if 1 < ctx.previous_interventions then 1 else 0 := by
    split <;> norm_num
  have h4 : (0:ℚ) ≤ if !kw.high_risk_categories.isEmpty
      then (kw.high_risk_categories.length : ℚ) * (3/2) else 0 := by
    split
    · exact mul_nonneg (Nat.cast_nonneg _) (by norm_num)
    · norm_num
  have hpos : (0:ℚ) ≤ kw.total_severity * (1/2) + (pat.severity : ℚ) * (3/10) +
      ((if ctx.escalation_detected then 2 else 0) +
       (if ctx.emotional_deterioration then 1 else 0) +
       (if 1 < ctx.previous_interventions then 1 else 0) +
       (if !kw.high_risk_categories.isEmpty
         then (kw.high_risk_categories.length : ℚ) * (3/2) else 0)) :=
    add_nonneg
      (add_nonneg (mul_nonneg h (by norm_num))
        (mul_nonneg (Nat.cast_nonneg _) (by norm_num)))
      (add_nonneg (add_nonneg (add_nonneg h1 h2) h3) h4)
  have harg : kw.total_severity * (1/2) + (pat.severity : ℚ) * (3/10) +
      ((if ctx.escalation_detected then 2 else 0) +
       (if ctx.emotional_deterioration then 1 else 0) +
       (if 1 < ctx.previous_interventions then 1 else 0) +
       (if !kw.high_risk_categories.isEmpty
         then (kw.high_risk_categories.length : ℚ) * (3/2) else 0)) =
      (1/2) * kw.total_severity + (3/10) * (pat.severity : ℚ) +
      ((if ctx.escalation_detected then 2 else 0) +
       (if ctx.emotional_deterioration then 1 else 0) +
       (if 1 < ctx.previous_interventions then 1 else 0) +
       (kw.high_risk_categories.length : ℚ) * (3/2)) := by
    by_cases hh : kw.high_risk_categories.isEmpty
    · have h0 : kw.high_risk_categories.length = 0 :=
        List.isEmpty_iff.mp hh ▸ rfl
      simp only [hh, Bool.not_true, Bool.false_eq_true, if_false, h0,
        Nat.cast_zero]
      ring
    · simp only [hh, Bool.not_false, if_true]
      ring
  simp only [calculate_crisis_level, specCrisisLevelTrunc]
  rw [truncQ_of_nonneg hpos, harg]

/-- `_update_session_crisis_tracking` always appends the new event and then
drops just enough of the front to fit the 10-entry cap. -/
theorem update_session_crisis_tracking_eq_drop (sh : List Event) (lvl : ℤ)
    (ty : String) :
    update_session_crisis_tracking sh lvl ty =
      (sh ++ [(⟨lvl, ty⟩ : Event)]).drop (sh.length + 1 - 10) := by
  simp only [update_session_crisis_tracking, takeLast]
  split
  · simp [List.length_append]
  · rename_i hle
    have h0 : sh.length + 1 - 10 = 0 := by
      simp only [List.length_append, List.length_singleton] at hle
      omega
    rw [h0, List.drop_zero]

theorem analyze_safety_history_length_le (f : Faults) (m : List Char)
    (dbH : List HistMsg) (sh : List Event) (h : sh.length ≤ 10) :
    (analyze_safety f m dbH sh).sessionHistory.length ≤ 10 := by
  rcases f with ⟨fk, fp, fa⟩
  cases fk <;> cases fp <;> cases fa <;>
    simp_all [analyze_safety, update_session_crisis_tracking_eq_drop,
      List.length_drop, List.length_append]
  omega

theorem calculate_crisis_level_ge_three (kw : KeywordAnalysis)
    (pat : PatternAnalysis) (h3 : (3:ℚ) ≤ kw.total_severity)
    (hh : 1 ≤ kw.high_risk_categories.length) :
    3 ≤ calculate_crisis_level kw pat defaultContext := by
  have hne : kw.high_risk_categories.isEmpty = false := by
    cases hcs : kw.high_risk_categories with
    | nil => rw [hcs] at hh; simp at hh
    | cons a t => rfl
  have hlen : (1:ℚ) ≤ (kw.high_risk_categories.length : ℚ) := by
    exact_mod_cast hh
  have f1 : (3:ℚ) * (1/2) ≤ kw.total_severity * (1/2) :=
    mul_le_mul_of_nonneg_right h3 (by norm_num)
  have f2 : (0:ℚ) ≤ (pat.severity : ℚ) * (3/10) :=
    mul_nonneg (Nat.cast_nonneg _) (by norm_num)
  have f3 : (1:ℚ) * (3/2) ≤ (kw.high_risk_categories.length : ℚ) * (3/2) :=
    mul_le_mul_of_nonneg_right hlen (by norm_num)
  have hT : (3:ℚ) ≤ kw.total_severity * (1/2) + (pat.severity : ℚ) * (3/10) +
      ((if defaultContext.escalation_detected then 2 else 0) +
       (if defaultContext.emotional_deterioration then 1 else 0) +
       (if 1 < defaultContext.previous_interventions then 1 else 0) +
       (if !kw.high_risk_categories.isEmpty
         then (kw.high_risk_categories.length : ℚ) * (3/2) else 0)) := by
    simp only [defaultContext, hne, Bool.not_false, if_true, if_false]
    norm_num
    linarith
  have hfloor : (3:ℤ) ≤ truncQ (kw.total_severity * (1/2) +
      (pat.severity : ℚ) * (3/10) +
      ((if defaultContext.escalation_detected then 2 else 0) +
       (if defaultContext.emotional_deterioration then 1 else 0) +
       (if 1 < defaultContext.previous_interventions then 1 else 0) +
       (if !kw.high_risk_categories.isEmpty
         then (kw.high_risk_categories.length : ℚ) * (3/2) else 0))) := by
    rw [truncQ_of_nonneg (le_trans (by norm_num) hT)]
    exact Int.le_floor.mpr (by exact_mod_cast hT)
  exact le_max_of_le_right (le_min (by norm_num) hfloor)

theorem assess_urgency_suicide_not_none (lvl : ℤ) (ctx : Context)
    (h3 : 3 ≤ lvl) :
    assess_urgency lvl "suicide_risk" ctx = "low" ∨
    assess_urgency lvl "suicide_risk" ctx = "urgent" ∨
    assess_urgency lvl "suicide_risk" ctx = "immediate" := by
  unfold assess_urgency
  by_cases h9 : 9 ≤ lvl
  · simp [h9]
  · by_cases h7 : 7 ≤ lvl
    · right; right; simp [h9, h7]
    · by_cases h5 : 5 ≤ lvl
      · right; left; simp [h9, h7, h5]
      · have h6 : ¬ (6 ≤ lvl) := by omega
        left
        simp [h9, h7, h5, h6, h3]

theorem sum_map_filter_eq {α : Type} (l : List α) (p : α → Bool) (f : α → ℚ)
    (h : ∀ x ∈ l, p x = false → f x = 0) :
    ((l.filter p).map f).sum = (l.map f).sum := by
  induction l with
  | nil => rfl
  | cons a t ih =>
    have ht := ih (fun x hx => h x (List.mem_cons_of_mem _ hx))
    by_cases hp : p a
    · simp [List.filter_cons, hp, ht]
    · have h0 : f a = 0 := h a (List.mem_cons_self a t) (by simpa using hp)
      simp [List.filter_cons, hp, h0, ht]

/-- The clamped total severity, written as a sum over the whole category
table (categories with no match contribute zero severity). -/
theorem total_severity_eq (m : List Char) :
    (analyze_crisis_keywords m).total_severity =
      min 10 ((crisis_keywords.map (fun ck =>
        ((matchedTerms (lowerStr m) ck.2).length : ℚ) * categoryWeight ck.1)).sum) := by
  simp only [analyze_crisis_keywords]
  congr 1
  rw [sum_map_filter_eq]
  · rw [List.map_map]
    rfl
  · intro x hx hfalse
    obtain ⟨ck, _, rfl⟩ := List.mem_map.mp hx
    have hnil : matchedTerms (lowerStr m) ck.2 = [] := by
      simpa using hfalse
    simp [hnil]

/-- The number of matched high-risk categories, as a count over the whole
category table. -/
theorem hrc_length_eq (m : List Char) :
    (analyze_crisis_keywords m).high_risk_categories.length =
      crisis_keywords.countP (fun ck =>
        (((ck.1 == "suicide" || ck.1 == "self_harm" || ck.1 == "violence") &&
          decide (0 < (matchedTerms (lowerStr m) ck.2).length)) &&
        !(matchedTerms (lowerStr m) ck.2).isEmpty)) := by
  simp only [analyze_crisis_keywords, List.length_map, List.filter_filter,
    ← List.countP_eq_length_filter, List.countP_map]
  rfl

theorem hrc_bonus_eq (kw : KeywordAnalysis) :
    (if !kw.high_risk_categories.isEmpty
      then (kw.high_risk_categories.length : ℚ) * (3/2) else 0) =
      (kw.high_risk_categories.length : ℚ) * (3/2) := by
  by_cases hh : kw.high_risk_categories.isEmpty
  · have h0 : kw.high_risk_categories.length = 0 :=
      List.isEmpty_iff.mp hh ▸ rfl
    simp [hh, h0]
  · simp [hh]

theorem calculate_crisis_level_mono {kw₁ kw₂ : KeywordAnalysis}
    {pat₁ pat₂ : PatternAnalysis} (ctx : Context)
    (h0 : 0 ≤ kw₁.total_severity)
    (hts : kw₁.total_severity ≤ kw₂.total_severity)
    (hhr : kw₁.high_risk_categories.length ≤ kw₂.high_risk_categories.length)
    (hps : pat₁.severity ≤ pat₂.severity) :
    calculate_crisis_level kw₁ pat₁ ctx ≤ calculate_crisis_level kw₂ pat₂ ctx := by
  have hc : (0:ℚ) ≤ (if ctx.escalation_detected then 2 else 0) +
      (if ctx.emotional_deterioration then 1 else 0) +
      (if 1 < ctx.previous_interventions then 1 else 0) := by
    have c1 : (0:ℚ) ≤ if ctx.escalation_detected then 2 else 0 := by
      split <;> norm_num
    have c2 : (0:ℚ) ≤ if ctx.emotional_deterioration then 1 else 0 := by
      split <;> norm_num
    have c3 : (0:ℚ) ≤ if 1 < ctx.previous_interventions then 1 else 0 := by
      split <;> norm_num
    linarith
  have e₁ := hrc_bonus_eq kw₁
  have e₂ := hrc_bonus_eq kw₂
  have hhrq : (kw₁.high_risk_categories.length : ℚ) * (3/2) ≤
      (kw₂.high_risk_categories.length : ℚ) * (3/2) :=
    mul_le_mul_of_nonneg_right (by exact_mod_cast hhr) (by norm_num)
  have hpsq : (pat₁.severity : ℚ) * (3/10) ≤ (pat₂.severity : ℚ) * (3/10) :=
    mul_le_mul_of_nonneg_right (by exact_mod_cast hps) (by norm_num)
  have htsq : kw₁.total_severity * (1/2) ≤ kw₂.total_severity * (1/2) :=
    mul_le_mul_of_nonneg_right hts (by norm_num)
  simp only [calculate_crisis_level, e₁, e₂]
  have hT1 : (0:ℚ) ≤ kw₁.total_severity * (1/2) + (pat₁.severity : ℚ) * (3/10) +
      ((if ctx.escalation_detected then 2 else 0) +
       (if ctx.emotional_deterioration then 1 else 0) +
       (if 1 < ctx.previous_interventions then 1 else 0) +
       (kw₁.high_risk_categories.length : ℚ) * (3/2)) := by
    have := mul_nonneg (Nat.cast_nonneg (α := ℚ) pat₁.severity)
      (by norm_num : (0:ℚ) ≤ 3/10)
    have := mul_nonneg (Nat.cast_nonneg (α := ℚ) kw₁.high_risk_categories.length)
      (by norm_num : (0:ℚ) ≤ 3/2)
    have := mul_nonneg h0 (by norm_num : (0:ℚ) ≤ 1/2)
    linarith
  have hT : kw₁.total_severity * (1/2) + (pat₁.severity : ℚ) * (3/10) +
      ((if ctx.escalation_detected then 2 else 0) +
       (if ctx.emotional_deterioration then 1 else 0) +
       (if 1 < ctx.previous_interventions then 1 else 0) +
       (kw₁.high_risk_categories.length : ℚ) * (3/2)) ≤
      kw₂.total_severity * (1/2) + (pat₂.severity : ℚ) * (3/10) +
      ((if ctx.escalation_detected then 2 else 0) +
       (if ctx.emotional_deterioration then 1 else 0) +
       (if 1 < ctx.previous_interventions then 1 else 0) +
       (kw₂.high_risk_categories.length : ℚ) * (3/2)) := by linarith
  refine max_le_max le_rfl (min_le_min le_rfl ?_)
  rw [truncQ_of_nonneg hT1, truncQ_of_nonneg (le_trans hT1 hT)]
  exact Int.floor_le_floor hT

/-! ## Claim theorems -/

/-- C1: on every path of `analyze_safety` (including the failure fallback,
whose crisis level is 8), a returned crisis level of at least 9 forces
`requires_escalation = true`; and in `check_escalation_needed` a current
crisis level of at least 9 (`immediate_danger`) forces
`escalation_needed = true`, whatever the session history — hence whatever the
other three criteria — are. -/
theorem crisis_level_nine_forces_escalation :
    (∀ (f : Faults) (m : List Char) (dbH : List HistMsg) (sh : List Event),
      9 ≤ (analyze_safety f m dbH sh).verdict.crisis_level →
      (analyze_safety f m dbH sh).verdict.requires_escalation = true) ∧
    (∀ (sh : List Event) (lvl : ℤ), 9 ≤ lvl →
      (check_escalation_needed sh lvl).escalation_needed = true) := by
  constructor
  · intro f m dbH sh h
    rcases f with ⟨fk, fp, fa⟩
    cases fk <;> cases fp <;> cases fa <;>
      simp_all [analyze_safety, fallbackVerdict, crisis_thresholds]
  · intro sh lvl h
    simp [check_escalation_needed, h]

/-- Witness for C1 at a concrete four-keyword message that scores crisis
level 9, and at `check_escalation` with an empty history and level 9. -/
theorem crisis_level_nine_forces_escalation_witness :
    (analyze_safety noFaults (lc "انتحار أموت جروح عنف") [] []).verdict.requires_escalation
        = true ∧
    (check_escalation_needed [] 9).escalation_needed = true :=
  ⟨crisis_level_nine_forces_escalation.1 noFaults (lc "انتحار أموت جروح عنف") [] []
      (by rw [← analyze_safetyE_eq]; decide),
   crisis_level_nine_forces_escalation.2 [] 9 (by decide)⟩

/-- C2: if the keyword, pattern or aggregation step raises, `analyze_safety`
returns (rather than propagates) the fixed conservative fallback verdict —
crisis_level 8, crisis_type "unknown", urgency "high",
requires_intervention true — and leaves the session state untouched. -/
theorem failure_returns_conservative_fallback (f : Faults) (m : List Char)
    (dbH : List HistMsg) (sh : List Event)
    (h : f.keywordFault = true ∨ f.patternFault = true ∨ f.aggregationFault = true) :
    analyze_safety f m dbH sh = ⟨fallbackVerdict, sh, none⟩ ∧
    fallbackVerdict.crisis_level = 8 ∧
    fallbackVerdict.crisis_type = "unknown" ∧
    fallbackVerdict.urgency = "high" ∧
    fallbackVerdict.requires_intervention = true := by
  refine ⟨?_, rfl, rfl, rfl, rfl⟩
  rcases f with ⟨fk, fp, fa⟩
  rcases h with h | h | h <;> simp_all [analyze_safety]

/-- Witness for C2 with a keyword-subsystem fault. -/
theorem failure_returns_conservative_fallback_witness :
    analyze_safety ⟨true, false, false⟩ (lc "") [] [] = ⟨fallbackVerdict, [], none⟩ ∧
    fallbackVerdict.crisis_level = 8 ∧
    fallbackVerdict.crisis_type = "unknown" ∧
    fallbackVerdict.urgency = "high" ∧
    fallbackVerdict.requires_intervention = true :=
  failure_returns_conservative_fallback ⟨true, false, false⟩ (lc "") [] []
    (Or.inl rfl)

/-- C3: the crisis level returned by `analyze_safety` (an integer by type) is
always between 0 and 10 inclusive, on the normal path and on the failure
fallback path alike. -/
theorem crisis_level_in_range (f : Faults) (m : List Char) (dbH : List HistMsg)
    (sh : List Event) :
    0 ≤ (analyze_safety f m dbH sh).verdict.crisis_level ∧
    (analyze_safety f m dbH sh).verdict.crisis_level ≤ 10 := by
  rcases f with ⟨fk, fp, fa⟩
  cases fk <;> cases fp <;> cases fa <;>
    simp_all [analyze_safety, fallbackVerdict]
  exact calculate_crisis_level_bounds _ _ _

/-- C5 counterexample: for the message consisting of the single self-harm term
"جروح" and an empty session context — category severity 5/2, pattern severity
0, one high-risk category — the code computes crisis level
int(5/2·1/2 + 3/2) = int(2.75) = 2, while the spec's rounded formula gives
round(2.75) = 3. -/
theorem aggregation_rounding_counterexample :
    calculate_crisis_level (analyze_crisis_keywords (lc "جروح"))
        (analyze_crisis_patterns (lc "جروح")) defaultContext = 2 ∧
    specCrisisLevelRound (analyze_crisis_keywords (lc "جروح")).total_severity
        (((analyze_crisis_patterns (lc "جروح")).severity : ℕ) : ℚ)
        defaultContext.escalation_detected defaultContext.emotional_deterioration
        defaultContext.previous_interventions
        (analyze_crisis_keywords (lc "جروح")).high_risk_categories.length = 3 := by
  constructor
  · rw [← calculate_crisis_levelE_eq, ← analyze_crisis_keywordsE_eq]
    decide
  · rw [← specCrisisLevelRoundE_eq, ← qnat_eq, ← analyze_crisis_keywordsE_eq]
    decide

/-- C5 (amended): the aggregated crisis level equals
clamp(0, 10, ⌊0.5·category_severity + 0.3·pattern_severity + context_bonus⌋)
with context_bonus = 2·[escalation] + 1·[deterioration] +
1·[previous_interventions > 1] + 1.5·|high_risk_categories| — i.e. the spec's
formula with the weighted sum truncated (as Python `int()` does on these
non-negative scores), not rounded. -/
theorem aggregation_formula_truncates (m : List Char) (ctx : Context) :
    calculate_crisis_level (analyze_crisis_keywords m)
        (analyze_crisis_patterns m) ctx =
      specCrisisLevelTrunc (analyze_crisis_keywords m).total_severity
        ((analyze_crisis_patterns m).severity : ℚ) ctx.escalation_detected
        ctx.emotional_deterioration ctx.previous_interventions
        (analyze_crisis_keywords m).high_risk_categories.length :=
  calculate_crisis_level_trunc_eq _ _ _ (total_severity_nonneg m)

/-- C7 counterexample: with event history levels [7, 9, 8] the code flags
`increasing_severity` (8 > 7 and 7+9+8 = 24 > 18) although the three levels
are not strictly increasing (9 > 8 fails). -/
theorem increasing_severity_counterexample :
    (check_escalation_needed
        [⟨7, "suicide_risk"⟩, ⟨9, "suicide_risk"⟩, ⟨8, "suicide_risk"⟩]
        0).criteria_met.increasing_severity = true ∧
    ¬ specIncreasingSeverity
        [⟨7, "suicide_risk"⟩, ⟨9, "suicide_risk"⟩, ⟨8, "suicide_risk"⟩] := by
  decide

/-- C7 (amended): `criteria_met.increasing_severity` holds exactly when the
session has at least 3 events and the last three levels a, b, c satisfy a < c
(the last strictly above the third-from-last — the middle level is not
constrained) and a + b + c > 18. -/
theorem increasing_severity_criterion (sh : List Event) (lvl : ℤ) :
    (check_escalation_needed sh lvl).criteria_met.increasing_severity = true ↔
      (3 ≤ sh.length ∧ ∃ a b c : ℤ,
        (takeLast 3 sh).map (fun e => e.crisis_level) = [a, b, c] ∧
        a < c ∧ 18 < a + b + c) := by
  simp only [check_escalation_needed]
  by_cases hlen : 3 ≤ sh.length
  · have hlen3 : ((takeLast 3 sh).map (fun e : Event => e.crisis_level)).length = 3 := by
      simp only [List.length_map, takeLast, List.length_drop]
      omega
    obtain ⟨a, b, c, habc⟩ := List.length_eq_three.mp hlen3
    rw [habc]
    simp only [hlen, if_true, List.headD_cons, List.getLastD_cons,
      List.getLastD_nil, List.sum_cons, List.sum_nil, add_zero,
      Bool.and_eq_true, decide_eq_true_eq, true_and]
    constructor
    · rintro ⟨h1, h2⟩
      exact ⟨a, b, c, rfl, h1, by linarith⟩
    · rintro ⟨a', b', c', heq, h1, h2⟩
      obtain ⟨rfl, rfl, rfl⟩ : a = a' ∧ b = b' ∧ c = c' := by
        simpa using heq
      exact ⟨h1, by linarith⟩
  · simp [hlen]

/-- C4 counterexample: analyzing an empty message in a fresh session yields
crisis level 0, below the medium threshold 5, yet the session's event list
does not stay unchanged — an event is appended to it. -/
theorem event_recorded_below_threshold :
    (analyze_safety noFaults (lc "") [] []).verdict.crisis_level < 5 ∧
    (analyze_safety noFaults (lc "") [] []).sessionHistory ≠ [] := by
  rw [← analyze_safetyE_eq]
  decide

/-- C4 (amended): only the durable database crisis-event log entry is gated by
the medium threshold — it is produced exactly when crisis_level ≥ 5 — whereas
the session's in-memory tracking list receives an event carrying the verdict's
level and type on every successful analysis, whatever the level. -/
theorem crisis_event_logging (m : List Char) (dbH : List HistMsg)
    (sh : List Event) :
    ((analyze_safety noFaults m dbH sh).logged.isSome ↔
      5 ≤ (analyze_safety noFaults m dbH sh).verdict.crisis_level) ∧
    ∃ e : Event,
      e.crisis_level = (analyze_safety noFaults m dbH sh).verdict.crisis_level ∧
      e.crisis_type = (analyze_safety noFaults m dbH sh).verdict.crisis_type ∧
      (analyze_safety noFaults m dbH sh).sessionHistory =
        (sh ++ [e]).drop (sh.length + 1 - 10) := by
  constructor
  · by_cases h5 : 5 ≤ calculate_crisis_level (analyze_crisis_keywords m)
        (analyze_crisis_patterns m) (analyze_session_context dbH sh) <;>
      simp [analyze_safety, noFaults, crisis_thresholds, h5]
  · exact ⟨⟨calculate_crisis_level (analyze_crisis_keywords m)
        (analyze_crisis_patterns m) (analyze_session_context dbH sh),
      determine_crisis_type (analyze_crisis_keywords m)
        (analyze_crisis_patterns m)⟩,
      rfl, rfl, update_session_crisis_tracking_eq_drop sh _ _⟩

/-- C9: the per-session crisis-event list stays within the 10-entry cap over
any sequence of `analyze_safety` calls starting from a fresh session, and once
the cap is reached an analysis evicts the oldest entry: the new history is the
old one minus its head, plus the new event at the back. -/
theorem session_event_list_capped :
    (∀ inputs : List AnalyzeInput, (runAnalyses inputs []).length ≤ 10) ∧
    (∀ (m : List Char) (dbH : List HistMsg) (sh : List Event),
      sh.length = 10 → ∃ e : Event,
        (analyze_safety noFaults m dbH sh).sessionHistory = sh.tail ++ [e]) := by
  constructor
  · have inv : ∀ (inputs : List AnalyzeInput) (sh : List Event),
        sh.length ≤ 10 → (runAnalyses inputs sh).length ≤ 10 := by
      intro inputs
      induction inputs with
      | nil => intro sh h; simpa [runAnalyses] using h
      | cons i rest ih =>
        intro sh h
        rw [runAnalyses, List.foldl_cons]
        exact ih _ (analyze_safety_history_length_le i.faults i.message
          i.dbHistory sh h)
    exact fun inputs => inv inputs [] (by simp)
  · intro m dbH sh hlen
    refine ⟨⟨calculate_crisis_level (analyze_crisis_keywords m)
        (analyze_crisis_patterns m) (analyze_session_context dbH sh),
      determine_crisis_type (analyze_crisis_keywords m)
        (analyze_crisis_patterns m)⟩, ?_⟩
    have hstep : (analyze_safety noFaults m dbH sh).sessionHistory =
        update_session_crisis_tracking sh _ _ := rfl
    rw [hstep, update_session_crisis_tracking_eq_drop, hlen]
    rw [show (10 : ℕ) + 1 - 10 = 1 from rfl,
      List.drop_append_of_le_length (by omega), List.drop_one]

/-- Witness for C9: the cap bound at an empty call sequence, and eviction of
the oldest entry from a full ten-event history. -/
theorem session_event_list_capped_witness :
    (runAnalyses [] []).length ≤ 10 ∧
    ∃ e : Event, (analyze_safety noFaults (lc "") []
        (List.replicate 10 (⟨0, "none"⟩ : Event))).sessionHistory =
      (List.replicate 10 (⟨0, "none"⟩ : Event)).tail ++ [e] :=
  ⟨session_event_list_capped.1 [],
   session_event_list_capped.2 (lc "") [] (List.replicate 10 ⟨0, "none"⟩)
     (by decide)⟩

/-- C6 counterexample: the message consisting of exactly the suicide trigger
term "انتحار", analyzed with no prior history, is classified suicide_risk but
scores crisis level 3 — below the claimed 6 — with urgency "low", which is
neither "urgent" nor "immediate". -/
theorem suicide_term_scenario_counterexample :
    (∃ kw ∈ suicide_keywords,
      containsSub (lowerStr (lc "انتحار")) kw = true) ∧
    (analyze_safety noFaults (lc "انتحار") [] []).verdict.crisis_type
      = "suicide_risk" ∧
    (analyze_safety noFaults (lc "انتحار") [] []).verdict.crisis_level = 3 ∧
    (analyze_safety noFaults (lc "انتحار") [] []).verdict.urgency = "low" := by
  rw [← analyze_safetyE_eq]
  decide

/-- C6 (amended): a message containing at least one suicide-category trigger
term, analyzed in a session with no prior history, is always classified
`suicide_risk`, but its crisis level is only guaranteed to be at least 3 (a
single matched term yields exactly 3) and its urgency to be "low", "urgent" or
"immediate". -/
theorem suicide_term_scenario (m : List Char)
    (h : ∃ kw ∈ suicide_keywords, containsSub (lowerStr m) kw = true) :
    (analyze_safety noFaults m [] []).verdict.crisis_type = "suicide_risk" ∧
    3 ≤ (analyze_safety noFaults m [] []).verdict.crisis_level ∧
    ((analyze_safety noFaults m [] []).verdict.urgency = "low" ∨
     (analyze_safety noFaults m [] []).verdict.urgency = "urgent" ∨
     (analyze_safety noFaults m [] []).verdict.urgency = "immediate") := by
  obtain ⟨kw, hkw, hc⟩ := h
  have hms : kw ∈ matchedTerms (lowerStr m) suicide_keywords :=
    List.mem_filter.mpr ⟨hkw, hc⟩
  have hne : matchedTerms (lowerStr m) suicide_keywords ≠ [] :=
    List.ne_nil_of_mem hms
  have hlen1 : 1 ≤ (matchedTerms (lowerStr m) suicide_keywords).length :=
    List.length_pos.mpr hne
  have hmem : ("suicide", CategoryMatch.mk
      (matchedTerms (lowerStr m) suicide_keywords)
      (matchedTerms (lowerStr m) suicide_keywords).length
      (((matchedTerms (lowerStr m) suicide_keywords).length : ℚ) *
        categoryWeight "suicide")) ∈ (analyze_crisis_keywords m).matched := by
    simp only [analyze_crisis_keywords, List.mem_filter, List.mem_map]
    refine ⟨⟨("suicide", suicide_keywords), by simp [crisis_keywords], rfl⟩, ?_⟩
    simpa using hne
  have hcat : hasCategory (analyze_crisis_keywords m) "suicide" = true := by
    rw [hasCategory, List.any_eq_true]
    exact ⟨_, hmem, by simp⟩
  have hty : determine_crisis_type (analyze_crisis_keywords m)
      (analyze_crisis_patterns m) = "suicide_risk" := by
    simp [determine_crisis_type, hcat]
  have hsev : (3:ℚ) ≤ (analyze_crisis_keywords m).total_severity := by
    refine le_min (by norm_num) ?_
    have hx : (((matchedTerms (lowerStr m) suicide_keywords).length : ℚ) *
        categoryWeight "suicide") ∈
        (analyze_crisis_keywords m).matched.map (fun p => p.2.severity) :=
      List.mem_map_of_mem _ hmem
    have hsum : (((matchedTerms (lowerStr m) suicide_keywords).length : ℚ) *
        categoryWeight "suicide") ≤
        ((analyze_crisis_keywords m).matched.map (fun p => p.2.severity)).sum := by
      refine List.single_le_sum ?_ _ hx
      intro x hxx
      obtain ⟨p, hp, rfl⟩ := List.mem_map.mp hxx
      obtain ⟨ck, _, rfl, _⟩ := mem_keyword_matched hp
      exact mul_nonneg (Nat.cast_nonneg _) (categoryWeight_pos ck.1).le
    have h31 : (3:ℚ) ≤ ((matchedTerms (lowerStr m) suicide_keywords).length : ℚ) *
        categoryWeight "suicide" := by
      have hl : (1:ℚ) ≤ ((matchedTerms (lowerStr m) suicide_keywords).length : ℚ) := by
        exact_mod_cast hlen1
      have : (1:ℚ) * categoryWeight "suicide" ≤
          ((matchedTerms (lowerStr m) suicide_keywords).length : ℚ) *
            categoryWeight "suicide" :=
        mul_le_mul_of_nonneg_right hl (categoryWeight_pos _).le
      calc (3:ℚ) = 1 * categoryWeight "suicide" := by norm_num [categoryWeight]
        _ ≤ _ := this
    exact le_trans h31 hsum
  have hhrc : "suicide" ∈ (analyze_crisis_keywords m).high_risk_categories := by
    show "suicide" ∈ ((analyze_crisis_keywords m).matched.filter _).map _
    refine List.mem_map.mpr ⟨_, List.mem_filter.mpr ⟨hmem, ?_⟩, rfl⟩
    simpa using hlen1
  have hhlen : 1 ≤ (analyze_crisis_keywords m).high_risk_categories.length :=
    List.length_pos.mpr (List.ne_nil_of_mem hhrc)
  have hlvl : 3 ≤ calculate_crisis_level (analyze_crisis_keywords m)
      (analyze_crisis_patterns m) defaultContext :=
    calculate_crisis_level_ge_three _ _ hsev hhlen
  refine ⟨hty, hlvl, ?_⟩
  have hu := assess_urgency_suicide_not_none
    (calculate_crisis_level (analyze_crisis_keywords m)
      (analyze_crisis_patterns m) defaultContext) defaultContext hlvl
  rw [← hty] at hu
  exact hu

/-- Witness for C6 (amended) at the suicide trigger term "لا أريد العيش". -/
theorem suicide_term_scenario_witness :
    (analyze_safety noFaults (lc "لا أريد العيش") [] []).verdict.crisis_type
      = "suicide_risk" ∧
    3 ≤ (analyze_safety noFaults (lc "لا أريد العيش") [] []).verdict.crisis_level ∧
    ((analyze_safety noFaults (lc "لا أريد العيش") [] []).verdict.urgency = "low" ∨
     (analyze_safety noFaults (lc "لا أريد العيش") [] []).verdict.urgency = "urgent" ∨
     (analyze_safety noFaults (lc "لا أريد العيش") [] []).verdict.urgency
       = "immediate") :=
  suicide_term_scenario (lc "لا أريد العيش") (by decide)

/-- C8: for a fixed session context, if one message's per-category keyword
match counts and per-pattern phrase match counts are all at least another's,
its crisis level is at least the other's; in particular adding one more
matching risk-category term or risk-pattern phrase to a message, leaving all
other matches unchanged, never decreases the crisis level. -/
theorem crisis_level_monotone (m₁ m₂ : List Char) (ctx : Context)
    (hcat : ∀ ck ∈ crisis_keywords,
      (matchedTerms (lowerStr m₁) ck.2).length ≤
        (matchedTerms (lowerStr m₂) ck.2).length)
    (hpat : ∀ ws ∈ [finality_words, goodbye_words, extreme_words, worthless_words],
      countMatches (lowerStr m₁) ws ≤ countMatches (lowerStr m₂) ws) :
    calculate_crisis_level (analyze_crisis_keywords m₁)
        (analyze_crisis_patterns m₁) ctx ≤
      calculate_crisis_level (analyze_crisis_keywords m₂)
        (analyze_crisis_patterns m₂) ctx := by
  refine calculate_crisis_level_mono ctx (total_severity_nonneg m₁) ?_ ?_ ?_
  · rw [total_severity_eq, total_severity_eq]
    refine min_le_min le_rfl (List.sum_le_sum ?_)
    intro ck hck
    exact mul_le_mul_of_nonneg_right (by exact_mod_cast hcat ck hck)
      (categoryWeight_pos ck.1).le
  · rw [hrc_length_eq, hrc_length_eq]
    refine List.countP_mono_left ?_
    intro ck hck h1
    rw [Bool.and_eq_true, Bool.and_eq_true] at h1
    obtain ⟨⟨hnames, hpos⟩, _⟩ := h1
    rw [decide_eq_true_eq] at hpos
    have hle := hcat ck hck
    have hpos₂ : 0 < (matchedTerms (lowerStr m₂) ck.2).length := by omega
    rw [Bool.and_eq_true, Bool.and_eq_true]
    refine ⟨⟨hnames, by rw [decide_eq_true_eq]; exact hpos₂⟩, ?_⟩
    cases hms : matchedTerms (lowerStr m₂) ck.2 with
    | nil => rw [hms] at hpos₂; simp at hpos₂
    | cons a t => rfl
  · simp only [analyze_crisis_patterns]
    refine min_le_min le_rfl ?_
    have h1 := hpat finality_words (by simp)
    have h2 := hpat goodbye_words (by simp)
    have h3 := hpat extreme_words (by simp)
    have h4 := hpat worthless_words (by simp)
    omega

/-- Witness for C8: the one-suicide-term message versus the same message with
one more suicide term added. -/
theorem crisis_level_monotone_witness :
    calculate_crisis_level (analyze_crisis_keywords (lc "انتحار"))
        (analyze_crisis_patterns (lc "انتحار")) defaultContext ≤
      calculate_crisis_level (analyze_crisis_keywords (lc "انتحار أموت"))
        (analyze_crisis_patterns (lc "انتحار أموت")) defaultContext :=
  crisis_level_monotone (lc "انتحار") (lc "انتحار أموت") defaultContext
    (by decide) (by decide)

/-- C10: the urgency of every `EscalationAssessment` is "immediate" exactly
when the current crisis level is at least 9 and "urgent" otherwise; it is
never "none", "low" or "moderate". -/
theorem escalation_urgency_immediate_or_urgent (sh : List Event) (lvl : ℤ) :
    (check_escalation_needed sh lvl).urgency =
      (if 9 ≤ lvl then "immediate" else "urgent") ∧
    ((check_escalation_needed sh lvl).urgency = "immediate" ∨
      (check_escalation_needed sh lvl).urgency = "urgent") := by
  have key : (check_escalation_needed sh lvl).urgency =
      (if 9 ≤ lvl then "immediate" else "urgent") := by
    by_cases h : 9 ≤ lvl <;> simp [check_escalation_needed, h]
  refine ⟨key, ?_⟩
  rw [key]
  by_cases h : 9 ≤ lvl <;> simp [h]

end SafetyService
